import Mathlib

/-!
Shallow embedding of aquestalk/aquestalk.py, the single source file of
AquesTalk-python: a ctypes binding around the proprietary AquesTalk DLL.

Modelling conventions:
- The foreign library (AquesTalk_Synthe / AquesTalk_FreeWave) is opaque to the
  wrapper, so it is embedded as a parameter of type ForeignLib: a function from
  the encoded byte string and the speed to an optional buffer (a pointer
  identity paired with the bytes readable at it) and the written size/error
  value (the c_int passed by reference).
- The Shift_JIS codec used by koe.encode is Python-library code outside this
  repository; it is embedded as a parameter enc assigning to each character its
  encoded bytes, or none when the character is outside the repertoire
  (in which case Python raises UnicodeEncodeError).
- Python exceptions become the PyError sum; a raising function returns
  Except PyError.
- Calls that cross the foreign boundary or touch the filesystem are logged so
  that claims about how often an entry point is invoked become statements about
  the log.
-/

namespace AquesTalkPy

/-- Embeds VOICE_TYPES, line 31 of the source: the eight variant names. -/
def VOICE_TYPES : List String :=
  ["f1", "f2", "m1", "m2", "r1", "dvd", "jgr", "imd1"]

/-- Embeds the VoiceType enum built from VOICE_TYPES at line 32. -/
inductive VoiceType where
  | f1 | f2 | m1 | m2 | r1 | dvd | jgr | imd1
deriving DecidableEq, Repr

/-- Name of an enum member, as voice_type.name in Python. -/
def VoiceType.name : VoiceType → String
  | .f1 => "f1"
  | .f2 => "f2"
  | .m1 => "m1"
  | .m2 => "m2"
  | .r1 => "r1"
  | .dvd => "dvd"
  | .jgr => "jgr"
  | .imd1 => "imd1"

/-- Embeds the enum name lookup VoiceType[s]; none models the KeyError Python
raises for a string that is not a member name. -/
def VoiceType.ofName? (s : String) : Option VoiceType :=
  if s = "f1" then some .f1
  else if s = "f2" then some .f2
  else if s = "m1" then some .m1
  else if s = "m2" then some .m2
  else if s = "r1" then some .r1
  else if s = "dvd" then some .dvd
  else if s = "jgr" then some .jgr
  else if s = "imd1" then some .imd1
  else none

/-- Embeds the AquesTalkError exception, lines 169-194: it carries the integer
code in err and the looked-up diagnostic in message. -/
structure AquesTalkError where
  err : Int
  message : String
deriving DecidableEq, Repr

/-- Embeds the class-level messages dict of AquesTalkError, lines 173-189. -/
def AquesTalkError.messages : List (Int × String) :=
  [(100, "その他のエラー"),
   (101, "メモリ不足"),
   (102, "音声記号列に未定義の読み記号が指定された"),
   (103, "韻律データの時間長がマイナスなっている"),
   (104, "内部エラー(未定義の区切りコード検出）"),
   (105, "音声記号列に未定義の読み記号が指定された"),
   (106, "音声記号列のタグの指定が正しくない"),
   (107, "タグの長さが制限を越えている（または[>]がみつからない）"),
   (108, "タグ内の値の指定が正しくない"),
   (109, "WAVE再生ができない（サウンドドライバ関連の問題）"),
   (110, "WAVE再生ができない（サウンドドライバ関連の問題非同期再生）"),
   (111, "発声すべきデータがない"),
   (200, "音声記号列が長すぎる"),
   (201, "１つのフレーズ中の読み記号が多すぎる"),
   (202, "音声記号列が長い（内部バッファオーバー1）"),
   (203, "ヒープメモリ不足"),
   (204, "音声記号列が長い（内部バッファオーバー1）")]

/-- Embeds AquesTalkError.__init__, lines 191-194: the message is the table
entry when the code is a key of the dict, else the generic unknown-error text,
and the code is stored verbatim in err. -/
def AquesTalkError.ofErr (err : Int) : AquesTalkError :=
  match AquesTalkError.messages.lookup err with
  | some m => { err := err, message := m }
  | none => { err := err, message := "不明なエラー" }

/-- A Python exception escaping the wrapper. The aques constructor is the
AquesTalkError raised at line 119; unicodeEncode is the UnicodeEncodeError
raised by koe.encode at line 154; keyError models dict or enum subscript
failures (lines 235 and 260); fileNotFound models open() failing at line 199;
oSError models ctypes.windll.LoadLibrary failing at line 53; waveError models
wave.open rejecting the bytes at line 89. -/
inductive PyError where
  | aques : AquesTalkError → PyError
  | unicodeEncode : PyError
  | keyError : String → PyError
  | fileNotFound : String → PyError
  | oSError : String → PyError
  | waveError : PyError
deriving DecidableEq, Repr

/-- The opaque foreign library: AquesTalk_Synthe receives the encoded text and
the speed and yields an optional buffer (pointer identity and the bytes stored
behind it) together with the value written through the size out-parameter. -/
structure ForeignLib where
  AquesTalk_Synthe : List Nat → Int → Option (Nat × List Nat) × Int

/-- Log of foreign entry-point invocations made during one wrapper call:
the arguments of each AquesTalk_Synthe call and the pointer identity of each
AquesTalk_FreeWave call. -/
structure CallLog where
  syntheCalls : List (List Nat × Int)
  freeCalls : List Nat
deriving DecidableEq, Repr

/-- Embeds koe.encode with the sjis codec, line 154, the codec itself being the
parameter enc: every character is encoded and the results concatenated; if any
character is outside the repertoire the whole encode raises (none). -/
def encodeSjis (enc : Char → Option (List Nat)) : List Char → Option (List Nat)
  | [] => some []
  | c :: cs =>
    match enc c, encodeSjis enc cs with
    | some b, some rest => some (b ++ rest)
    | _, _ => none

/-- Embeds the AquesTalk class, lines 35-62: one loaded DLL handle and the
voice type stored at construction (None allowed by the constructor default). -/
structure AquesTalk where
  _dll : ForeignLib
  _voice_type : Option VoiceType

/-- Embeds the voice_type property accessor, lines 126-131. -/
def AquesTalk.voice_type (self : AquesTalk) : Option VoiceType :=
  self._voice_type

/-- Embeds AquesTalk._freewave, lines 157-166: one AquesTalk_FreeWave call on
the given pointer, recorded in the log. -/
def AquesTalk._freewave (log : CallLog) (p : Nat) : CallLog :=
  { log with freeCalls := log.freeCalls ++ [p] }

/-- Embeds AquesTalk._synthe, lines 133-155: encode koe as Shift_JIS (raising
UnicodeEncodeError before any foreign call when a character cannot be encoded),
then call AquesTalk_Synthe with the bytes and the speed; the null pointer is
already turned into None here, and the size out-parameter value is returned
alongside. -/
def AquesTalk._synthe (self : AquesTalk) (enc : Char → Option (List Nat))
    (koe : String) (speed : Int) :
    Except PyError (Option (Nat × List Nat) × Int) × CallLog :=
  match encodeSjis enc koe.data with
  | none => (.error .unicodeEncode, { syntheCalls := [], freeCalls := [] })
  | some bytes =>
    let r := self._dll.AquesTalk_Synthe bytes speed
    (.ok r, { syntheCalls := [(bytes, speed)], freeCalls := [] })

/-- Embeds AquesTalk.synthe_raw, lines 92-124: call _synthe; on a null pointer
raise AquesTalkError built from the size value; otherwise copy size bytes out
of the foreign buffer, free the buffer once, and return the copy. -/
def AquesTalk.synthe_raw (self : AquesTalk) (enc : Char → Option (List Nat))
    (koe : String) (speed : Int := 100) :
    Except PyError (List Nat) × CallLog :=
  match AquesTalk._synthe self enc koe speed with
  | (.error e, log) => (.error e, log)
  | (.ok (none, size), log) => (.error (.aques (AquesTalkError.ofErr size)), log)
  | (.ok (some (p, buf), size), log) =>
    (.ok (buf.take size.toNat), AquesTalk._freewave log p)

/-- Embeds AquesTalk.synthe, lines 64-90: synthe_raw, then wave.open on the
returned bytes. The wave module is Python-library code outside this repository,
so the parser is the parameter waveOpen; its failure is the waveError
exception, distinct from AquesTalkError. -/
def AquesTalk.synthe {W : Type} (self : AquesTalk) (waveOpen : List Nat → Except Unit W)
    (enc : Char → Option (List Nat)) (koe : String) (speed : Int := 100) :
    Except PyError W × CallLog :=
  match AquesTalk.synthe_raw self enc koe speed with
  | (.ok bs, log) => ((waveOpen bs).mapError (fun _ => PyError.waveError), log)
  | (.error e, log) => (.error e, log)

/-- Successive chunks of at most n elements, with explicit fuel so that the
recursion is structural; fuel at least the length of the list is enough since
every step with a nonzero n consumes at least one element. -/
def chunksOfFuel (n : Nat) : Nat → List Nat → List (List Nat)
  | 0, _ => []
  | _, [] => []
  | Nat.succ fuel, l =>
    if n = 0 then [] else l.take n :: chunksOfFuel n fuel (l.drop n)

/-- The chunk sequence produced by iter of file.read at line 200: reads of
chunk_size bytes until the empty read; with chunk_size zero the first read is
already empty and no chunk is produced. -/
def chunksOf (n : Nat) (l : List Nat) : List (List Nat) :=
  chunksOfFuel n l.length l

/-- Embeds _get_md5_from_file, lines 197-202. The md5 object of hashlib is
Python-library code outside this repository, so it is a parameter: a running
state with md5init as hashlib.md5(), md5update as md5.update applied to each
chunk in order, and hexdigest reading off the digest. The filesystem is the
parameter fs; a missing file is the FileNotFoundError of open(). -/
def _get_md5_from_file {S : Type} (md5init : S) (md5update : S → List Nat → S)
    (hexdigest : S → String) (fs : String → Option (List Nat))
    (name : String) (chunk_size : Nat := 4096) : Except PyError String :=
  match fs name with
  | none => .error (.fileNotFound name)
  | some content =>
    .ok (hexdigest ((chunksOf chunk_size content).foldl md5update md5init))

/-- Embeds _DLL_MD5_DICT, lines 206-215: the fixed table from known DLL
digests to voice types. -/
def _DLL_MD5_DICT : List (String × VoiceType) :=
  [("d09ba89e04fc6a848377cb695b7c227a", .f1),
   ("23bd3bbfe89e7bb0f92e5e3ed841cec4", .f1),
   ("f97a031451220238b21ada12dd2ba6b7", .f1),
   ("8bfacc9e1c9d6f1a1f6803739a9ed7d6", .f2),
   ("950cb2c4a9493ff3af7906fdb02b523b", .m1),
   ("d4491b6ff6aab7e6f3a19dad369d0432", .m2),
   ("1a69c64175f46271f9f491890b265762", .r1),
   ("cd431c8c86c1566e73cbbb166047b8a9", .dvd),
   ("54f15b467cbf215884d29a0ad39a9df3", .jgr),
   ("e352165e9da54e255c3c25a33cb85aaa", .imd1)]

/-- Embeds the AquesTalk constructor at line 262 together with the
ctypes.windll.LoadLibrary call at line 53; the dynamic loader is opaque, so it
is the parameter loadLib, none being the OSError LoadLibrary raises. The
second component lists the paths on which the filesystem or the dynamic loader
was accessed. -/
def loadLibrary (loadLib : String → Option ForeignLib) (path : String)
    (vt : Option VoiceType) : Except PyError AquesTalk × List String :=
  match loadLib path with
  | none => (.error (.oSError path), [path])
  | some lib => (.ok { _dll := lib, _voice_type := vt }, [path])

/-- Embeds load_from_path, lines 240-262. Note the guard of the source at
line 258 is the test that check_voice_type is false: the md5 fingerprint check
runs exactly when check_voice_type is false, and the dict subscript at line
260 raises KeyError when the digest is not a key of _DLL_MD5_DICT. -/
def load_from_path {S : Type} (md5init : S) (md5update : S → List Nat → S)
    (hexdigest : S → String) (fs : String → Option (List Nat))
    (loadLib : String → Option ForeignLib) (path : String)
    (voice_type : VoiceType) (check_voice_type : Bool := false) :
    Except PyError AquesTalk × List String :=
  if check_voice_type = false then
    match _get_md5_from_file md5init md5update hexdigest fs path with
    | .error e => (.error e, [path])
    | .ok md5 =>
      match _DLL_MD5_DICT.lookup md5 with
      | none => (.error (.keyError md5), [path])
      | some fingerprinted =>
        let vt := if fingerprinted ≠ voice_type then fingerprinted else voice_type
        let r := loadLibrary loadLib path (some vt)
        (r.1, path :: r.2)
  else
    loadLibrary loadLib path (some voice_type)

/-- Embeds load, lines 218-237: a VoiceType member is used as is, any other
value is looked up as an enum name (KeyError when it is not one, raised before
any filesystem or loader access), then the per-variant path is joined and
load_from_path is delegated to. The directory of the package file is the
parameter pkgDir. -/
def load {S : Type} (md5init : S) (md5update : S → List Nat → S)
    (hexdigest : S → String) (fs : String → Option (List Nat))
    (loadLib : String → Option ForeignLib) (pkgDir : String)
    (voice_type : VoiceType ⊕ String) (check_voice_type : Bool := false) :
    Except PyError AquesTalk × List String :=
  match voice_type with
  | .inl v =>
    load_from_path md5init md5update hexdigest fs loadLib
      (pkgDir ++ "/" ++ v.name ++ "/AquesTalk.dll") v check_voice_type
  | .inr s =>
    match VoiceType.ofName? s with
    | none => (.error (.keyError s), [])
    | some v =>
      load_from_path md5init md5update hexdigest fs loadLib
        (pkgDir ++ "/" ++ v.name ++ "/AquesTalk.dll") v check_voice_type

/-- The fingerprint-identification step of load_from_path (lines 259-260) in
isolation: hash the file with _get_md5_from_file and look the digest up in
_DLL_MD5_DICT, the dict subscript raising KeyError on an unknown digest. -/
def identify {S : Type} (md5init : S) (md5update : S → List Nat → S)
    (hexdigest : S → String) (fs : String → Option (List Nat))
    (path : String) : Except PyError VoiceType :=
  match _get_md5_from_file md5init md5update hexdigest fs path with
  | .error e => .error e
  | .ok md5 =>
    match _DLL_MD5_DICT.lookup md5 with
    | none => .error (.keyError md5)
    | some v => .ok v

/-! Helper lemmas shared by the claim theorems. -/

/-- Lookup in an association list misses when the key is not among the keys. -/
theorem lookup_eq_none_of_not_mem_keys {α β : Type} [BEq α] [LawfulBEq α]
    (l : List (α × β)) (a : α) (h : a ∉ l.map Prod.fst) : l.lookup a = none := by
  induction l with
  | nil => rfl
  | cons p t ih =>
    obtain ⟨k, b⟩ := p
    simp only [List.map_cons, List.mem_cons, not_or] at h
    obtain ⟨h1, h2⟩ := h
    have hk : (a == k) = false := beq_eq_false_iff_ne.mpr h1
    simp [List.lookup, hk, ih h2]

/-- Encoding fails whenever some character of the input is unencodable. -/
theorem encodeSjis_eq_none_of_mem {enc : Char → Option (List Nat)}
    {cs : List Char} (h : ∃ c ∈ cs, enc c = none) : encodeSjis enc cs = none := by
  induction cs with
  | nil => simp at h
  | cons c cs ih =>
    obtain ⟨d, hd, hde⟩ := h
    simp only [List.mem_cons] at hd
    cases hd with
    | inl h1 =>
      subst h1
      simp only [encodeSjis, hde]
    | inr h2 =>
      simp only [encodeSjis, ih ⟨d, h2, hde⟩]
      cases enc c <;> rfl

/-- Closed-form description of synthe_raw: the encode failure, the null
pointer, and the success case, with the exact foreign-call log of each. -/
theorem synthe_raw_spec (self : AquesTalk) (enc : Char → Option (List Nat))
    (koe : String) (speed : Int) :
    AquesTalk.synthe_raw self enc koe speed =
      match encodeSjis enc koe.data with
      | none => (.error .unicodeEncode, { syntheCalls := [], freeCalls := [] })
      | some bytes =>
        match self._dll.AquesTalk_Synthe bytes speed with
        | (none, size) =>
          (.error (.aques (AquesTalkError.ofErr size)),
           { syntheCalls := [(bytes, speed)], freeCalls := [] })
        | (some (p, buf), size) =>
          (.ok (buf.take size.toNat),
           { syntheCalls := [(bytes, speed)], freeCalls := [p] }) := by
  unfold AquesTalk.synthe_raw AquesTalk._synthe AquesTalk._freewave
  cases encodeSjis enc koe.data with
  | none => rfl
  | some bytes =>
    dsimp only
    rcases self._dll.AquesTalk_Synthe bytes speed with ⟨_ | ⟨p, buf⟩, size⟩ <;> rfl

/-! Concrete instances used by the witness and counterexample theorems. -/

/-- A concrete foreign library: always returns pointer 7 over a four-byte
RIFF buffer with size 4. -/
def dll0 : ForeignLib := { AquesTalk_Synthe := fun _ _ => (some (7, [82, 73, 70, 70]), 4) }

/-- A concrete foreign library that always fails with the out-of-memory
code 101 through the size out-parameter. -/
def dll101 : ForeignLib := { AquesTalk_Synthe := fun _ _ => (none, 101) }

/-- A concrete stand-in for the Shift_JIS codec covering the ASCII range. -/
def enc0 : Char → Option (List Nat) :=
  fun c => if c.toNat < 128 then some [c.toNat] else none

/-- A session over dll0 declared as voice f1. -/
def self0 : AquesTalk := { _dll := dll0, _voice_type := some .f1 }

/-- A session over dll101 declared as voice f1. -/
def self101 : AquesTalk := { _dll := dll101, _voice_type := some .f1 }

/-- A concrete WAV parser accepting exactly the RIFF bytes dll0 produces. -/
def waveOpen0 : List Nat → Except Unit Nat :=
  fun bs => if bs = [82, 73, 70, 70] then .ok 42 else .error ()

/-! Claim theorems. -/

/-- C3: in every call to synthe_raw the free-buffer entry point runs at most
once; whenever the encode succeeds and the foreign call returns a non-null
pointer, AquesTalk_FreeWave runs exactly once on that pointer before
synthe_raw returns, and whenever the foreign call returns a null pointer it
never runs. -/
theorem C3_synthe_raw_frees_exactly_once (self : AquesTalk)
    (enc : Char → Option (List Nat)) (koe : String) (speed : Int) :
    (AquesTalk.synthe_raw self enc koe speed).2.freeCalls.length ≤ 1 ∧
    (∀ bytes, encodeSjis enc koe.data = some bytes →
      (∀ p buf size,
        self._dll.AquesTalk_Synthe bytes speed = (some (p, buf), size) →
        (AquesTalk.synthe_raw self enc koe speed).2.freeCalls = [p]) ∧
      (∀ size, self._dll.AquesTalk_Synthe bytes speed = (none, size) →
        (AquesTalk.synthe_raw self enc koe speed).2.freeCalls = [])) := by
  rw [synthe_raw_spec]
  cases he : encodeSjis enc koe.data with
  | none =>
    refine ⟨by simp, ?_⟩
    intro bytes hbytes
    exact absurd hbytes (by simp)
  | some bytes =>
    dsimp only
    constructor
    · rcases self._dll.AquesTalk_Synthe bytes speed with ⟨_ | ⟨p, buf⟩, size⟩ <;> simp
    · intro bytes' hbytes'
      injection hbytes' with hbytes'
      subst hbytes'
      constructor
      · intro p buf size hr
        rw [hr]
      · intro size hr
        rw [hr]

/-- C3 witness: the concrete successful call frees exactly pointer 7 once. -/
theorem C3_witness :
    (AquesTalk.synthe_raw self0 enc0 "a" 100).2.freeCalls = [7] :=
  ((C3_synthe_raw_frees_exactly_once self0 enc0 "a" 100).2 [97] rfl).1
    7 [82, 73, 70, 70] 4 rfl

/-- C4: when the foreign call returns a null pointer, synthe_raw raises the
AquesTalkError translated from the size value; at code 101 the raised error
carries code 101 and the out-of-memory message of the fixed table. -/
theorem C4_null_pointer_error_code_101 (self : AquesTalk)
    (enc : Char → Option (List Nat)) (koe : String) (speed : Int) (bytes : List Nat)
    (henc : encodeSjis enc koe.data = some bytes) :
    (∀ size, self._dll.AquesTalk_Synthe bytes speed = (none, size) →
      (AquesTalk.synthe_raw self enc koe speed).1 =
        .error (.aques (AquesTalkError.ofErr size))) ∧
    (self._dll.AquesTalk_Synthe bytes speed = (none, 101) →
      (AquesTalk.synthe_raw self enc koe speed).1 =
        .error (.aques { err := 101, message := "メモリ不足" })) := by
  rw [synthe_raw_spec, henc]
  dsimp only
  constructor
  · intro size hr
    rw [hr]
  · intro hr
    rw [hr]
    exact rfl

/-- C4 witness: the concrete always-101 library makes synthe_raw raise the
out-of-memory AquesTalkError with code 101. -/
theorem C4_witness :
    (AquesTalk.synthe_raw self101 enc0 "a" 100).1 =
      .error (.aques { err := 101, message := "メモリ不足" }) :=
  (C4_null_pointer_error_code_101 self101 enc0 "a" 100 [97] rfl).2 rfl

/-- C5: a code absent from the messages table translates to the generic
unknown-error message while the err field keeps the original code verbatim. -/
theorem C5_unknown_code_preserved (err : Int)
    (h : err ∉ AquesTalkError.messages.map Prod.fst) :
    (AquesTalkError.ofErr err).message = "不明なエラー" ∧
    (AquesTalkError.ofErr err).err = err := by
  unfold AquesTalkError.ofErr
  rw [lookup_eq_none_of_not_mem_keys _ _ h]
  exact ⟨rfl, rfl⟩

/-- C5 witness: 999 is not a key of the table, its message is the generic one
and its code is preserved. -/
theorem C5_witness :
    (999 : Int) ∉ AquesTalkError.messages.map Prod.fst ∧
    (AquesTalkError.ofErr 999).message = "不明なエラー" ∧
    (AquesTalkError.ofErr 999).err = 999 :=
  ⟨by decide, (C5_unknown_code_preserved 999 (by decide)).1,
   (C5_unknown_code_preserved 999 (by decide)).2⟩

/-- C6: a text with a character outside the codec repertoire makes synthe_raw
raise the UnicodeEncodeError, no foreign synthesize call and no free call is
made, and that error is distinct from every AquesTalkError. -/
theorem C6_encoding_error_before_foreign_call (self : AquesTalk)
    (enc : Char → Option (List Nat)) (koe : String) (speed : Int)
    (h : ∃ c ∈ koe.data, enc c = none) :
    (AquesTalk.synthe_raw self enc koe speed).1 = .error .unicodeEncode ∧
    (AquesTalk.synthe_raw self enc koe speed).2.syntheCalls = [] ∧
    (AquesTalk.synthe_raw self enc koe speed).2.freeCalls = [] ∧
    ∀ e : AquesTalkError, (PyError.unicodeEncode : PyError) ≠ .aques e := by
  rw [synthe_raw_spec, encodeSjis_eq_none_of_mem h]
  exact ⟨rfl, rfl, rfl, fun e hc => PyError.noConfusion hc⟩

/-- C6 witness: a hiragana character is outside the ASCII-only codec, so the
concrete call raises the encoding error and makes no foreign call. -/
theorem C6_witness :
    (AquesTalk.synthe_raw self0 enc0 "あ" 100).1 = .error .unicodeEncode ∧
    (AquesTalk.synthe_raw self0 enc0 "あ" 100).2.syntheCalls = [] :=
  ⟨(C6_encoding_error_before_foreign_call self0 enc0 "あ" 100
      ⟨'あ', by decide, by decide⟩).1,
   (C6_encoding_error_before_foreign_call self0 enc0 "あ" 100
      ⟨'あ', by decide, by decide⟩).2.1⟩

/-- C7: synthe is the WAV parse composed with synthe_raw: identical foreign
call log, the successful bytes handed to waveOpen, and an AquesTalkError
raised exactly when synthe_raw raises one. -/
theorem C7_synthe_composition {W : Type} (self : AquesTalk)
    (waveOpen : List Nat → Except Unit W) (enc : Char → Option (List Nat))
    (koe : String) (speed : Int) :
    (AquesTalk.synthe self waveOpen enc koe speed).2 =
      (AquesTalk.synthe_raw self enc koe speed).2 ∧
    (∀ bs, (AquesTalk.synthe_raw self enc koe speed).1 = .ok bs →
      (AquesTalk.synthe self waveOpen enc koe speed).1 =
        (waveOpen bs).mapError (fun _ => PyError.waveError)) ∧
    (∀ e : AquesTalkError,
      ((AquesTalk.synthe self waveOpen enc koe speed).1 = .error (.aques e) ↔
       (AquesTalk.synthe_raw self enc koe speed).1 = .error (.aques e))) := by
  unfold AquesTalk.synthe
  rcases h : AquesTalk.synthe_raw self enc koe speed with ⟨r, log⟩
  cases r with
  | ok bs =>
    dsimp only
    refine ⟨rfl, ?_, ?_⟩
    · intro bs' hbs'
      injection hbs' with hbs'
      subst hbs'
      rfl
    · intro e
      constructor
      · intro hc
        cases hw : waveOpen bs with
        | ok w => rw [hw] at hc; simp [Except.mapError] at hc
        | error u => rw [hw] at hc; simp [Except.mapError] at hc
      · intro hc
        simp at hc
  | error e' =>
    dsimp only
    refine ⟨rfl, fun bs hbs => absurd hbs (by simp), fun e => ⟨?_, ?_⟩⟩
    · intro hc
      injection hc with hc
      rw [hc]
    · intro hc
      injection hc with hc
      rw [hc]

/-- C7 witness: on the concrete session the parsed result of synthe is the
parse of the raw bytes synthe_raw returned. -/
theorem C7_witness :
    (AquesTalk.synthe self0 waveOpen0 enc0 "a" 100).1 = Except.ok 42 :=
  ((C7_synthe_composition self0 waveOpen0 enc0 "a" 100).2.1
    [82, 73, 70, 70] rfl).trans rfl

/-- C9: synthe_raw performs no range validation on speed: every integer speed
is passed verbatim to the foreign call, a raised error can only come from the
null-pointer path of the foreign call itself, and an omitted speed defaults
to 100. -/
theorem C9_speed_unvalidated_passthrough (self : AquesTalk)
    (enc : Char → Option (List Nat)) (koe : String) (speed : Int) (bytes : List Nat)
    (henc : encodeSjis enc koe.data = some bytes) :
    (AquesTalk.synthe_raw self enc koe speed).2.syntheCalls = [(bytes, speed)] ∧
    (∀ p buf size,
      self._dll.AquesTalk_Synthe bytes speed = (some (p, buf), size) →
      (AquesTalk.synthe_raw self enc koe speed).1 = .ok (buf.take size.toNat)) ∧
    (∀ e, (AquesTalk.synthe_raw self enc koe speed).1 = .error e →
      ∃ size, self._dll.AquesTalk_Synthe bytes speed = (none, size) ∧
        e = .aques (AquesTalkError.ofErr size)) ∧
    AquesTalk.synthe_raw self enc koe = AquesTalk.synthe_raw self enc koe 100 := by
  rw [synthe_raw_spec, henc]
  dsimp only
  refine ⟨?_, ?_, ?_, rfl⟩
  · rcases self._dll.AquesTalk_Synthe bytes speed with ⟨_ | ⟨p, buf⟩, size⟩ <;> rfl
  · intro p buf size hr
    rw [hr]
  · intro e he
    rcases hr : self._dll.AquesTalk_Synthe bytes speed with ⟨_ | ⟨p, buf⟩, size⟩
    · rw [hr] at he
      dsimp only at he
      injection he with he
      exact ⟨size, rfl, he.symm⟩
    · rw [hr] at he
      simp at he

/-- C9 witness: an out-of-range speed 999 is passed verbatim to the foreign
call, and calling synthe_raw without a speed is calling it with 100. -/
theorem C9_witness :
    (AquesTalk.synthe_raw self0 enc0 "a" 999).2.syntheCalls = [([97], 999)] ∧
    AquesTalk.synthe_raw self0 enc0 "a" = AquesTalk.synthe_raw self0 enc0 "a" 100 :=
  ⟨(C9_speed_unvalidated_passthrough self0 enc0 "a" 999 [97] rfl).1,
   (C9_speed_unvalidated_passthrough self0 enc0 "a" 999 [97] rfl).2.2.2⟩

/-! Concrete instances for the loader claims: the md5 machinery is collapsed
to a constant digest, which is a legitimate instantiation of the abstract
hash parameters since no claim depends on the digest algorithm itself. -/

/-- A filesystem on which every path holds an empty file. -/
def fs0 : String → Option (List Nat) := fun _ => some []

/-- A dynamic loader that resolves every path to dll0. -/
def loadLib0 : String → Option ForeignLib := fun _ => some dll0

/-- Trivial md5 running state. -/
def md5Init0 : Unit := ()

/-- Trivial md5 update. -/
def md5Update0 : Unit → List Nat → Unit := fun _ _ => ()

/-- A digest function whose value is the first f1 entry of _DLL_MD5_DICT. -/
def hexF1 : Unit → String := fun _ => "d09ba89e04fc6a848377cb695b7c227a"

/-- A digest function whose value is the f2 entry of _DLL_MD5_DICT. -/
def hexF2 : Unit → String := fun _ => "8bfacc9e1c9d6f1a1f6803739a9ed7d6"

/-- A digest function whose value is not a key of _DLL_MD5_DICT. -/
def hexUnknown : Unit → String := fun _ => "0123456789abcdef0123456789abcdef"

/-- C1: the claim fails on the code. The guard at line 258 of the source runs
the md5 fingerprint check only when check_voice_type is false, so loading a
file fingerprinted as f1 with hint f2 and check_voice_type true returns a
session whose voice type is the unchecked hint f2, not f1; the override the
claim describes happens instead when check_voice_type is false, contradicting
the parameter's own docstring. -/
theorem C1_check_true_skips_fingerprint :
    _DLL_MD5_DICT.lookup "d09ba89e04fc6a848377cb695b7c227a" = some VoiceType.f1 ∧
    ((load_from_path md5Init0 md5Update0 hexF1 fs0 loadLib0 "p" VoiceType.f2
        true).1.toOption.map AquesTalk.voice_type) = some (some VoiceType.f2) ∧
    ((load_from_path md5Init0 md5Update0 hexF1 fs0 loadLib0 "p" VoiceType.f2
        false).1.toOption.map AquesTalk.voice_type) = some (some VoiceType.f1) :=
  ⟨rfl, rfl, rfl⟩

/-- C2: the claim fails on the code. In the fingerprinting path (reached when
check_voice_type is false, the default) the dict subscript at line 260 raises
KeyError for a digest absent from _DLL_MD5_DICT, so an unknown fingerprint is
a failure rather than a fall-back to the caller-supplied hint; only the
check_voice_type true path returns the hint, and it does so by skipping
fingerprinting entirely. -/
theorem C2_unknown_fingerprint_raises_keyerror :
    _DLL_MD5_DICT.lookup "0123456789abcdef0123456789abcdef" = none ∧
    (load_from_path md5Init0 md5Update0 hexUnknown fs0 loadLib0 "p" VoiceType.f2
        false).1 = .error (.keyError "0123456789abcdef0123456789abcdef") ∧
    ((load_from_path md5Init0 md5Update0 hexUnknown fs0 loadLib0 "p" VoiceType.f2
        true).1.toOption.map AquesTalk.voice_type) = some (some VoiceType.f2) :=
  ⟨rfl, rfl, rfl⟩

/-- C8: identification is the table lookup of the file digest: when the digest
of the file at the path is a key of _DLL_MD5_DICT, identify returns that
entry's voice type; repeating the call returns the same result, and the result
depends only on the content the filesystem holds at the path, so for an
unmodified file it is independent of any other activity or call order. -/
theorem C8_identify_round_trip {S : Type}
    (md5init : S) (md5update : S → List Nat → S) (hexdigest : S → String)
    (fs fs' : String → Option (List Nat)) (path hash : String) (v : VoiceType)
    (hhash : _get_md5_from_file md5init md5update hexdigest fs path = .ok hash)
    (htable : _DLL_MD5_DICT.lookup hash = some v)
    (hsame : fs' path = fs path) :
    identify md5init md5update hexdigest fs path = .ok v ∧
    identify md5init md5update hexdigest fs path =
      identify md5init md5update hexdigest fs path ∧
    identify md5init md5update hexdigest fs' path =
      identify md5init md5update hexdigest fs path := by
  refine ⟨?_, rfl, ?_⟩
  · unfold identify
    rw [hhash]
    dsimp only
    rw [htable]
  · unfold identify _get_md5_from_file
    rw [hsame]

/-- C8 witness: a file whose digest is the f2 table entry identifies as f2. -/
theorem C8_witness :
    identify md5Init0 md5Update0 hexF2 fs0 "x" = .ok VoiceType.f2 :=
  (C8_identify_round_trip md5Init0 md5Update0 hexF2 fs0 fs0 "x"
     "8bfacc9e1c9d6f1a1f6803739a9ed7d6" VoiceType.f2 rfl rfl rfl).1

/-- C10: load accepts either a VoiceType member or a variant name string: the
strings on which the enum lookup succeeds are exactly VOICE_TYPES, a
recognized name behaves identically to the member it names, and any other
string fails with the KeyError of the enum subscript while the access trace
stays empty — before any filesystem or loader access. -/
theorem C10_load_accepts_member_or_name {S : Type}
    (md5init : S) (md5update : S → List Nat → S) (hexdigest : S → String)
    (fs : String → Option (List Nat)) (loadLib : String → Option ForeignLib)
    (pkgDir s : String) (c : Bool) :
    (s ∈ VOICE_TYPES ↔ (VoiceType.ofName? s).isSome) ∧
    (∀ v, VoiceType.ofName? s = some v →
      load md5init md5update hexdigest fs loadLib pkgDir (.inr s) c =
      load md5init md5update hexdigest fs loadLib pkgDir (.inl v) c) ∧
    (VoiceType.ofName? s = none →
      load md5init md5update hexdigest fs loadLib pkgDir (.inr s) c =
      (.error (.keyError s), [])) := by
  refine ⟨?_, ?_, ?_⟩
  · unfold VoiceType.ofName? VOICE_TYPES
    split_ifs with h1 h2 h3 h4 h5 h6 h7 h8 <;> simp_all
  · intro v hv
    simp only [load, hv]
  · intro hv
    simp only [load, hv]

/-- C10 witness: the name string f1 loads identically to the member f1, and an
unknown string fails with KeyError and an empty access trace. -/
theorem C10_witness :
    load md5Init0 md5Update0 hexF1 fs0 loadLib0 "pkg" (.inr "f1") false =
      load md5Init0 md5Update0 hexF1 fs0 loadLib0 "pkg" (.inl VoiceType.f1) false ∧
    load md5Init0 md5Update0 hexF1 fs0 loadLib0 "pkg" (.inr "xyz") false =
      (.error (.keyError "xyz"), []) :=
  ⟨(C10_load_accepts_member_or_name md5Init0 md5Update0 hexF1 fs0 loadLib0
      "pkg" "f1" false).2.1 VoiceType.f1 rfl,
   (C10_load_accepts_member_or_name md5Init0 md5Update0 hexF1 fs0 loadLib0
      "pkg" "xyz" false).2.2 rfl⟩

end AquesTalkPy
